import Mathlib

/-!
Verification development for rendermath.py.

The Python module has two layers: a process runner (`call`) that invokes an
external command with stdout/stderr redirected to temporary files, and the
math renderer (`MathSource`, `render_math`) that derives an MD5-based content
identity for a (source, dpi, display-mode) triple, looks up or creates a
cached PNG named `{identity}_{baseline}_{suffix}` in a target directory, and
parses the baseline depth out of dvipng diagnostics.

Byte strings are modelled as `List Nat` (each element a byte value), the
filesystem and the two external tools as an explicit environment record, and
the side effects of a render as a trace of events.
-/

/-! ### MD5 (RFC 1321), as used by hashlib.md5 in MathSource.hashed -/

/-- Modulus for 32-bit arithmetic. -/
def w32 : Nat := 4294967296

/-- Left rotation of a 32-bit word. -/
def rotl32 (x n : Nat) : Nat := ((x <<< n) ||| (x >>> (32 - n))) % w32

/-- Bitwise complement within 32 bits (for `x < 2^32`). -/
def not32 (x : Nat) : Nat := 4294967295 - x

/-- The 64 sine-derived MD5 constants. -/
def md5K : List Nat :=
  [0xd76aa478, 0xe8c7b756, 0x242070db, 0xc1bdceee,
   0xf57c0faf, 0x4787c62a, 0xa8304613, 0xfd469501,
   0x698098d8, 0x8b44f7af, 0xffff5bb1, 0x895cd7be,
   0x6b901122, 0xfd987193, 0xa679438e, 0x49b40821,
   0xf61e2562, 0xc040b340, 0x265e5a51, 0xe9b6c7aa,
   0xd62f105d, 0x02441453, 0xd8a1e681, 0xe7d3fbc8,
   0x21e1cde6, 0xc33707d6, 0xf4d50d87, 0x455a14ed,
   0xa9e3e905, 0xfcefa3f8, 0x676f02d9, 0x8d2a4c8a,
   0xfffa3942, 0x8771f681, 0x6d9d6122, 0xfde5380c,
   0xa4beea44, 0x4bdecfa9, 0xf6bb4b60, 0xbebfbc70,
   0x289b7ec6, 0xeaa127fa, 0xd4ef3085, 0x04881d05,
   0xd9d4d039, 0xe6db99e5, 0x1fa27cf8, 0xc4ac5665,
   0xf4292244, 0x432aff97, 0xab9423a7, 0xfc93a039,
   0x655b59c3, 0x8f0ccc92, 0xffeff47d, 0x85845dd1,
   0x6fa87e4f, 0xfe2ce6e0, 0xa3014314, 0x4e0811a1,
   0xf7537e82, 0xbd3af235, 0x2ad7d2bb, 0xeb86d391]

/-- The 64 per-round left-rotation amounts. -/
def md5S : List Nat :=
  [7, 12, 17, 22, 7, 12, 17, 22, 7, 12, 17, 22, 7, 12, 17, 22,
   5, 9, 14, 20, 5, 9, 14, 20, 5, 9, 14, 20, 5, 9, 14, 20,
   4, 11, 16, 23, 4, 11, 16, 23, 4, 11, 16, 23, 4, 11, 16, 23,
   6, 10, 15, 21, 6, 10, 15, 21, 6, 10, 15, 21, 6, 10, 15, 21]

/-- One step of the MD5 compression function on state (a, b, c, d). -/
def md5Step (M : List Nat) (st : Nat × Nat × Nat × Nat) (i : Nat) :
    Nat × Nat × Nat × Nat :=
  match st with
  | (a, b, c, d) =>
    let fg : Nat × Nat :=
      if i < 16 then ((b &&& c) ||| (not32 b &&& d), i)
      else if i < 32 then ((d &&& b) ||| (not32 d &&& c), (5 * i + 1) % 16)
      else if i < 48 then (b ^^^ c ^^^ d, (3 * i + 5) % 16)
      else (c ^^^ (b ||| not32 d), (7 * i) % 16)
    let f := (fg.1 + a + md5K.getD i 0 + M.getD fg.2 0) % w32
    (d, (b + rotl32 f (md5S.getD i 0)) % w32, b, c)

/-- MD5 compression of one 16-word block into the running state. -/
def md5Compress (st : Nat × Nat × Nat × Nat) (M : List Nat) :
    Nat × Nat × Nat × Nat :=
  match st with
  | (a0, b0, c0, d0) =>
    match (List.range 64).foldl (md5Step M) (a0, b0, c0, d0) with
    | (a, b, c, d) =>
      ((a0 + a) % w32, (b0 + b) % w32, (c0 + c) % w32, (d0 + d) % w32)

/-- Group a byte list into little-endian 32-bit words. -/
def toWords : List Nat → List Nat
  | a :: b :: c :: d :: rest =>
    (a + 256 * b + 65536 * c + 16777216 * d) :: toWords rest
  | _ => []

/-- The `k` least significant bytes of `n`, little-endian. -/
def leBytes : Nat → Nat → List Nat
  | _, 0 => []
  | n, k + 1 => n % 256 :: leBytes (n / 256) k

/-- MD5 padding: 0x80, zeros to 56 mod 64, then the 64-bit bit length. -/
def md5Pad (msg : List Nat) : List Nat :=
  msg ++ 128 :: List.replicate ((119 - msg.length % 64) % 64) 0
      ++ leBytes (8 * msg.length) 8

/-- Split a byte list into its successive 64-byte blocks; the first
argument is recursion fuel, any value at least the list length works. -/
def chunks64 : Nat → List Nat → List (List Nat)
  | 0, _ => []
  | _, [] => []
  | f + 1, l => List.take 64 l :: chunks64 f (List.drop 64 l)

/-- The 16-byte MD5 digest of a byte string. -/
def md5Digest (msg : List Nat) : List Nat :=
  match (chunks64 (md5Pad msg).length (md5Pad msg)).foldl
      (fun st block => md5Compress st (toWords block))
      (1732584193, 4023233417, 2562383102, 271733878) with
  | (a, b, c, d) => leBytes a 4 ++ leBytes b 4 ++ leBytes c 4 ++ leBytes d 4

/-- Lower-case hex character for a value below 16. -/
def hexChar (n : Nat) : Char := if n < 10 then Char.ofNat (48 + n) else Char.ofNat (87 + n)

/-- Hex rendering of a byte list, two characters per byte. -/
def bytesToHex : List Nat → List Char
  | [] => []
  | b :: rest => hexChar (b / 16) :: hexChar (b % 16) :: bytesToHex rest

/-- Hex digest string, as hashlib md5 hexdigest returns. -/
def md5Hex (msg : List Nat) : String := String.mk (bytesToHex (md5Digest msg))

/-- Byte values of an ASCII string. -/
def strBytes (s : String) : List Nat := s.data.map Char.toNat

def collA : List Nat :=
  [0x4d, 0xc9, 0x68, 0xff, 0x0e, 0xe3, 0x5c, 0x20, 0x95, 0x72, 0xd4, 0x77, 0x7b, 0x72, 0x15, 0x87,
   0xd3, 0x6f, 0xa7, 0xb2, 0x1b, 0xdc, 0x56, 0xb7, 0x4a, 0x3d, 0xc0, 0x78, 0x3e, 0x7b, 0x95, 0x18,
   0xaf, 0xbf, 0xa2, 0x00, 0xa8, 0x28, 0x4b, 0xf3, 0x6e, 0x8e, 0x4b, 0x55, 0xb3, 0x5f, 0x42, 0x75,
   0x93, 0xd8, 0x49, 0x67, 0x6d, 0xa0, 0xd1, 0x55, 0x5d, 0x83, 0x60, 0xfb, 0x5f, 0x07, 0xfe, 0xa2]

def collB : List Nat :=
  [0x4d, 0xc9, 0x68, 0xff, 0x0e, 0xe3, 0x5c, 0x20, 0x95, 0x72, 0xd4, 0x77, 0x7b, 0x72, 0x15, 0x87,
   0xd3, 0x6f, 0xa7, 0xb2, 0x1b, 0xdc, 0x56, 0xb7, 0x4a, 0x3d, 0xc0, 0x78, 0x3e, 0x7b, 0x95, 0x18,
   0xaf, 0xbf, 0xa2, 0x02, 0xa8, 0x28, 0x4b, 0xf3, 0x6e, 0x8e, 0x4b, 0x55, 0xb3, 0x5f, 0x42, 0x75,
   0x93, 0xd8, 0x49, 0x67, 0x6d, 0xa0, 0xd1, 0xd5, 0x5d, 0x83, 0x60, 0xfb, 0x5f, 0x07, 0xfe, 0xa2]

/-! ### Data model: MathSource and its operations -/

/-- Error taxonomy of the renderer: BaselineNotSetException, the RuntimeError
raised on nonempty latex stderr, and the AttributeError raised when the
depth token is missing from the dvipng output. -/
inductive RenderError where
  | baselineNotSet
  | typesettingFailure (stderrBytes : List Nat)
  | baselineParse
  deriving DecidableEq, Repr

/-- MathSource: expression bytes, dpi, display flag, and the optional
baseline, which the constructor leaves unset. -/
structure MathSource where
  src : List Nat
  dpi : Nat
  is_display : Bool
  baseline : Option Int
  deriving Repr

/-- MathSource.__init__: the baseline starts out as None. -/
def mkMathSource (src : List Nat) (dpi : Nat) (is_display : Bool) : MathSource :=
  ⟨src, dpi, is_display, none⟩

/-- Decimal digit bytes of a natural number, as Python repr renders a
nonnegative int. -/
def decBytesF : Nat → Nat → List Nat
  | 0, _ => []
  | f + 1, n => if n < 10 then [48 + n] else decBytesF f (n / 10) ++ [48 + n % 10]

/-- Decimal digit bytes of a natural number; the fuel n + 1 always
suffices since a number needs at most n + 1 digits. -/
def decBytes (n : Nat) : List Nat := decBytesF (n + 1) n

/-- Bytes of Python repr of a bool: "True" or "False". -/
def reprBool (b : Bool) : List Nat :=
  if b then strBytes "True" else strBytes "False"

/-- The byte string fed to md5 by MathSource.hashed: the three update calls
hash the concatenation of src, repr(dpi) and repr(is_display). -/
def hashInput (src : List Nat) (dpi : Nat) (is_display : Bool) : List Nat :=
  src ++ decBytes dpi ++ reprBool is_display

/-- MathSource.hashed: hexdigest of the md5 of the three updates. -/
def MathSource.hashed (ms : MathSource) : String :=
  md5Hex (hashInput ms.src ms.dpi ms.is_display)

/-! Regex machinery for `re.search(hashed + "_(\d+)_.*", filename)` and
`re.search("depth=(\d+)", dvipng_out)`.  Both patterns are a literal,
then a nonempty digit group; since no digit is an underscore, backtracking
over the greedy `\d+` never helps, so a position matches exactly when the
literal is followed by a maximal nonempty digit run and, for the first
pattern, an underscore; `re.search` takes the leftmost such position. -/

/-- Strip a literal from the front of a character list, if present. -/
def chopStart : List Char → List Char → Option (List Char)
  | [], s => some s
  | _ :: _, [] => none
  | p :: ps, c :: cs => if p = c then chopStart ps cs else none

/-- Split off the longest leading run of ASCII digits. -/
def digitSpan : List Char → List Char × List Char
  | [] => ([], [])
  | c :: cs =>
    if c.isDigit then
      let r := digitSpan cs
      (c :: r.1, r.2)
    else ([], c :: cs)

/-- Numeric value of a digit run, most significant first. -/
def digitsVal (ds : List Char) : Nat :=
  ds.foldl (fun a c => 10 * a + (c.toNat - 48)) 0

/-- Attempt the pattern hash ++ "_(\d+)_.*" at the start of s: the hash
literal, an underscore, a nonempty maximal digit run, an underscore, and
then anything.  The greedy digit group never backtracks usefully, because
a shorter prefix of the run would be followed by a digit, not an
underscore. -/
def tryAt (hash : List Char) (s : List Char) : Option Nat :=
  match chopStart hash s with
  | none => none
  | some [] => none
  | some (u :: t2) =>
    if u = '_' then
      match digitSpan t2 with
      | (_, []) => none
      | (ds, r :: _) =>
        if r = '_' then if ds = [] then none else some (digitsVal ds)
        else none
    else none

/-- re.search of hash ++ "_(\d+)_.*": leftmost matching position wins. -/
def reSearch (hash : List Char) : List Char → Option Nat
  | [] => tryAt hash []
  | c :: cs =>
    match tryAt hash (c :: cs) with
    | some n => some n
    | none => reSearch hash cs

/-- MathSource.matches: search the filename for the pattern built from the
hash; on a match return the digit group as an int, else None. -/
def MathSource.matches (ms : MathSource) (filename : String) : Option Int :=
  (reSearch ms.hashed.data filename.data).map (fun n => (n : Int))

/-- Decimal string of a natural number. -/
def decStr (n : Nat) : String := String.mk ((decBytes n).map Char.ofNat)

/-- Python "%d" formatting of an int. -/
def intDecStr (b : Int) : String :=
  if b < 0 then "-" ++ decStr b.natAbs else decStr b.natAbs

/-- MathSource.generated_filename: raises BaselineNotSetException when the
baseline is falsy, that is None or 0; otherwise formats
hash underscore baseline underscore suffix. -/
def MathSource.generated_filename (ms : MathSource) (suffix : String) :
    Except RenderError String :=
  match ms.baseline with
  | none => .error .baselineNotSet
  | some b =>
    if b = 0 then .error .baselineNotSet
    else .ok (ms.hashed ++ "_" ++ intDecStr b ++ "_" ++ suffix)

/-- os.path.join for a directory and a bare entry name. -/
def joinPath (d f : String) : String :=
  if d = "" then f
  else if d.data.getLast? = some '/' then d ++ f else d ++ "/" ++ f

/-- MathSource.find_in_dir: walk the directory listing; an entry counts only
if os.path.isfile holds of the bare name, which the interpreter resolves
against the process working directory, not dirpath; an entry whose parsed
baseline is 0 is also skipped, because the code tests the int for truth. -/
def MathSource.find_in_dir (ms : MathSource) (dirpath : String)
    (listing : List String) (isfile : String → Bool) : Option (String × Int) :=
  match listing with
  | [] => none
  | f :: rest =>
    if isfile f then
      match ms.matches f with
      | some b =>
        if b ≠ 0 then some (joinPath dirpath f, b)
        else ms.find_in_dir dirpath rest isfile
      | none => ms.find_in_dir dirpath rest isfile
    else ms.find_in_dir dirpath rest isfile

/-! Byte-level search for `re.search("depth=(\d+)", dvipng_out)`. -/

/-- Strip a literal byte sequence from the front of a byte list. -/
def chopStartB : List Nat → List Nat → Option (List Nat)
  | [], s => some s
  | _ :: _, [] => none
  | p :: ps, c :: cs => if p = c then chopStartB ps cs else none

/-- Split off the longest leading run of ASCII digit bytes. -/
def digitSpanB : List Nat → List Nat × List Nat
  | [] => ([], [])
  | c :: cs =>
    if 48 ≤ c ∧ c ≤ 57 then
      let r := digitSpanB cs
      (c :: r.1, r.2)
    else ([], c :: cs)

/-- Numeric value of a run of digit bytes. -/
def digitsValB (ds : List Nat) : Nat :=
  ds.foldl (fun a c => 10 * a + (c - 48)) 0

/-- Attempt the pattern "depth=(\d+)" at the start of a byte list. -/
def tryDepthAt (s : List Nat) : Option Nat :=
  match chopStartB (strBytes "depth=") s with
  | none => none
  | some t =>
    match digitSpanB t with
    | ([], _) => none
    | (ds, _) => some (digitsValB ds)

/-- re.search of "depth=(\d+)" over the dvipng standard output. -/
def depthSearch : List Nat → Option Nat
  | [] => tryDepthAt []
  | c :: cs =>
    match tryDepthAt (c :: cs) with
    | some n => some n
    | none => depthSearch cs

/-! ### The renderer pipeline render_math -/

/-- Observable actions of a render: the two external invocations and the
file copies and removals. -/
inductive Event where
  | latexRun (texfile : String)
  | dvipngRun (outPath : String) (dvifile : String)
  | copyFile (fromPath toPath : String)
  | removeFile (p : String)
  deriving DecidableEq, Repr

/-- Environment of one render_math call: what the filesystem and the two
external tools would answer.  latexOut and dvipngErr are captured by the
code but never read. -/
structure Env where
  isDir : Bool
  listing : List String
  isfile : String → Bool
  abspath : String → String
  tempImage : String
  texName : String
  latexOut : List Nat
  latexErr : List Nat
  dvipngOut : List Nat
  dvipngErr : List Nat

/-- Sibling of the tex file obtained by dropping the last three characters
and appending another suffix, as tempfilename[:-3] + suffix does. -/
def texSib (texName : String) (suffix : String) : String :=
  String.mk (texName.data.take (texName.data.length - 3)) ++ suffix

/-- The four best-effort removals at the end of render_math. -/
def cleanupEvents (texName : String) : List Event :=
  [Event.removeFile texName,
   Event.removeFile (texSib texName "dvi"),
   Event.removeFile (texSib texName "aux"),
   Event.removeFile (texSib texName "log")]

/-- The part of render_math that runs when no cached copy was returned:
latex, the stderr check, dvipng, the depth parse, and the copy or cleanup. -/
def renderFresh (ms : MathSource) (path : String) (image_path : String)
    (has_generated_name : Bool) (env : Env) :
    Except RenderError (String × Int) × List Event :=
  let ev1 := [Event.latexRun env.texName]
  if env.latexErr ≠ [] then
    (.error (.typesettingFailure env.latexErr), ev1)
  else
    let ev2 := ev1 ++ [Event.dvipngRun (env.abspath image_path) (texSib env.texName "dvi")]
    match depthSearch env.dvipngOut with
    | none => (.error .baselineParse, ev2)
    | some dep =>
      let baseline : Int := (dep : Int)
      let ms2 : MathSource := ⟨ms.src, ms.dpi, ms.is_display, some baseline⟩
      if has_generated_name then
        match ms2.generated_filename ".png" with
        | .error e => (.error e, ev2)
        | .ok name =>
          let output_path := joinPath path name
          (.ok (output_path, baseline),
           ev2 ++ [Event.copyFile image_path output_path, Event.removeFile image_path]
               ++ cleanupEvents env.texName)
      else
        (.ok (path, baseline), ev2 ++ cleanupEvents env.texName)

/-- render_math: in directory mode first look for a cached copy and return
it with no external invocation; otherwise render to a temp image and copy
it to the generated cache name; in file mode always render to path. -/
def render_math (src : List Nat) (path : String) (dpi : Nat) (is_display : Bool)
    (env : Env) : Except RenderError (String × Int) × List Event :=
  let ms := mkMathSource src dpi is_display
  if env.isDir then
    match ms.find_in_dir path env.listing env.isfile with
    | some (filename, baseline) => (.ok (filename, baseline), [])
    | none => renderFresh ms path env.tempImage true env
  else renderFresh ms path path false env

/-! ### The process runner call -/

/-- What the spawned child would do: its two output streams and its exit
status. -/
structure ChildRun where
  stdoutBytes : List Nat
  stderrBytes : List Nat
  exitCode : Int

/-- File operations performed by call. -/
inductive FileOp where
  | createTemp (name : String)
  | waitChild
  | readFile (name : String)
  | removeFile (name : String)
  deriving DecidableEq, Repr

/-- call: redirect stdout and stderr to two fresh temporary files, wait for
the child, read both files back, delete both, and return the two byte
buffers; the exit status is never consulted. -/
def call (outName errName : String) (child : ChildRun) :
    (List Nat × List Nat) × List FileOp :=
  ((child.stdoutBytes, child.stderrBytes),
   [FileOp.createTemp outName, FileOp.createTemp errName, FileOp.waitChild,
    FileOp.readFile outName, FileOp.removeFile outName,
    FileOp.readFile errName, FileOp.removeFile errName])

def msX : MathSource := mkMathSource (strBytes "x") 120 false

/-! ### Concrete instances used by the claim theorems -/

/-- Value of a run of decimal digit bytes, most significant first. -/
def decValB (l : List Nat) : Nat := l.foldl (fun a c => 10 * a + (c - 48)) 0

/-- ASCII lower-case hexadecimal characters 0-9 and a-f. -/
def isHexLower (c : Char) : Bool := c.isDigit || ('a' ≤ c && c ≤ 'f')

/-- File-mode environment in which latex reports an error. -/
def envLatexFail : Env :=
  ⟨false, [], fun _ => false, id, "/tmp/img", "/tmp/doc.tex",
   [], strBytes "latex error output", [], []⟩

/-- File-mode environment in which dvipng emits no depth token. -/
def envNoDepth : Env :=
  ⟨false, [], fun _ => false, id, "/tmp/img", "/tmp/doc.tex",
   [], [], strBytes "This is dvipng, no token here", []⟩

/-- File-mode environment for a successful render with baseline 7. -/
def envFileOk : Env :=
  ⟨false, [], fun _ => false, id, "/tmp/img", "/tmp/doc.tex",
   [], [], strBytes "depth=7 height=10", []⟩

/-- Directory-mode environment with an empty directory and depth=7. -/
def envC8 : Env :=
  ⟨true, [], fun _ => false, id, "/tmp/img", "/tmp/doc.tex",
   [], [], strBytes "depth=7", []⟩

/-- Directory-mode environment whose converter reports depth=0. -/
def envC9 : Env :=
  ⟨true, [], fun _ => false, id, "/tmp/img", "/tmp/doc.tex",
   [], [], strBytes "depth=0", []⟩

/-- The filename the first render would have stored for msX with baseline 7. -/
def cachedNameX : String := msX.hashed ++ "_7_.png"

/-- Directory-mode environment in which the target directory lists the
cached artifact, but the bare entry name does not exist as a file relative
to the process working directory. -/
def envC1 : Env :=
  ⟨true, [cachedNameX], fun _ => false, id, "/tmp/timg", "/tmp/doc.tex",
   [], [], strBytes "depth=7", []⟩

set_option maxRecDepth 10000

/-! ### Helper lemmas: decimal bytes -/

theorem decValB_append_digit (xs : List Nat) (y : Nat) :
    decValB (xs ++ [y]) = 10 * decValB xs + (y - 48) := by
  simp [decValB, List.foldl_append]

theorem decValB_decBytesF (f : Nat) : ∀ n : Nat, n < 10 ^ f →
    decValB (decBytesF f n) = n := by
  induction f with
  | zero =>
    intro n h
    have : n = 0 := by simpa using h
    subst this
    simp [decBytesF, decValB]
  | succ f ih =>
    intro n h
    by_cases h10 : n < 10
    · simp [decBytesF, h10, decValB]
    · rw [decBytesF]
      simp only [if_neg h10]
      rw [decValB_append_digit, ih (n / 10) ?_]
      · omega
      · have hp : 10 ^ (f + 1) = 10 ^ f * 10 := by ring
        rw [Nat.div_lt_iff_lt_mul (by omega)]
        omega

theorem decValB_decBytes (n : Nat) : decValB (decBytes n) = n := by
  apply decValB_decBytesF
  calc n < 10 ^ n := Nat.lt_pow_self (by omega) n
    _ ≤ 10 ^ (n + 1) := Nat.pow_le_pow_right (by omega) (by omega)

theorem decBytes_inj {a b : Nat} (h : decBytes a = decBytes b) : a = b := by
  have := congrArg decValB h
  rwa [decValB_decBytes, decValB_decBytes] at this

/-! ### Claim C2: content identity -/

/-- C2 counterexample: the claim says changing any one of the three inputs
while holding the other two fixed changes the digest.  These two distinct
64-byte expressions, at the same resolution 120 and display mode False,
are a known MD5 single-block colliding pair, so their content identities
are equal. -/
theorem c2_counterexample_md5_collision :
    collA ≠ collB ∧
    (mkMathSource collA 120 false).hashed = (mkMathSource collB 120 false).hashed := by
  constructor
  · decide
  · decide

/-- C2 amended: computing the identity twice yields the same digest (it does
not depend on the mutable baseline field); two triples that differ in exactly
one of expression, resolution or display mode always feed different byte
messages to the hash, so their identities can differ only through an MD5
collision; and the identities of ("x", 120, display) for display true versus
false are distinct digests. -/
theorem c2_identity_amended :
    (∀ (src : List Nat) (dpi : Nat) (dm : Bool) (b1 b2 : Option Int),
        (MathSource.mk src dpi dm b1).hashed = (MathSource.mk src dpi dm b2).hashed) ∧
    (∀ (src src2 : List Nat) (dpi : Nat) (dm : Bool), src ≠ src2 →
        hashInput src dpi dm ≠ hashInput src2 dpi dm) ∧
    (∀ (src : List Nat) (dpi dpi2 : Nat) (dm : Bool), dpi ≠ dpi2 →
        hashInput src dpi dm ≠ hashInput src dpi2 dm) ∧
    (∀ (src : List Nat) (dpi : Nat) (dm dm2 : Bool), dm ≠ dm2 →
        hashInput src dpi dm ≠ hashInput src dpi dm2) ∧
    (mkMathSource (strBytes "x") 120 true).hashed ≠
      (mkMathSource (strBytes "x") 120 false).hashed := by
  refine ⟨fun _ _ _ _ _ => rfl, ?_, ?_, ?_, by decide⟩
  · intro src src2 dpi dm hne he
    apply hne
    unfold hashInput at he
    exact List.append_cancel_right (List.append_cancel_right he)
  · intro src dpi dpi2 dm hne he
    apply hne
    unfold hashInput at he
    exact decBytes_inj (List.append_cancel_left (List.append_cancel_right he))
  · intro src dpi dm dm2 hne he
    unfold hashInput at he
    have h2 := List.append_cancel_left he
    cases dm <;> cases dm2 <;> simp_all <;> exact absurd h2 (by decide)

/-- Witness for c2_identity_amended at concrete inputs. -/
theorem c2_identity_amended_witness :
    hashInput [0] 120 false ≠ hashInput [1] 120 false ∧
    hashInput [] 120 false ≠ hashInput [] 121 false ∧
    hashInput [] 120 true ≠ hashInput [] 120 false :=
  ⟨c2_identity_amended.2.1 [0] [1] 120 false (by decide),
   c2_identity_amended.2.2.1 [] 120 121 false (by decide),
   c2_identity_amended.2.2.2.1 [] 120 true false (by decide)⟩

/-! ### Claim C3: generated_filename precondition -/

/-- C3: asking a Math Source whose baseline was never set for a generated
filename raises BaselineNotSetException, an error distinct from the
typesetting failure and from the baseline parse failure. -/
theorem c3_generated_filename_unset_baseline :
    (∀ (src : List Nat) (dpi : Nat) (dm : Bool) (suffix : String),
        (mkMathSource src dpi dm).generated_filename suffix =
          .error .baselineNotSet) ∧
    (∀ s, RenderError.baselineNotSet ≠ RenderError.typesettingFailure s) ∧
    RenderError.baselineNotSet ≠ RenderError.baselineParse := by
  refine ⟨fun _ _ _ _ => rfl, fun s h => ?_, fun h => ?_⟩
  · cases h
  · cases h

/-! ### Claim C7: the process runner -/

/-- C7: call creates exactly two temporary files, waits for the child,
reads each file and then deletes it, returns both captured streams, and
behaves identically for every exit status, which it never surfaces. -/
theorem c7_call_frame :
    ∀ (outName errName : String) (child : ChildRun),
      (call outName errName child).1 = (child.stdoutBytes, child.stderrBytes) ∧
      ((call outName errName child).2.filter
          (fun op => match op with | FileOp.createTemp _ => true | _ => false)).length = 2 ∧
      ((call outName errName child).2.filter
          (fun op => match op with | FileOp.removeFile _ => true | _ => false)).length = 2 ∧
      (call outName errName child).2 =
        [FileOp.createTemp outName, FileOp.createTemp errName, FileOp.waitChild,
         FileOp.readFile outName, FileOp.removeFile outName,
         FileOp.readFile errName, FileOp.removeFile errName] ∧
      (∀ code code2 : Int,
        call outName errName ⟨child.stdoutBytes, child.stderrBytes, code⟩ =
          call outName errName ⟨child.stdoutBytes, child.stderrBytes, code2⟩) :=
  fun _ _ _ => ⟨rfl, rfl, rfl, rfl, fun _ _ => rfl⟩

/-! ### Helper lemmas about renderFresh -/

theorem renderFresh_latex_error (ms : MathSource) (path ip : String) (hg : Bool)
    (env : Env) (herr : env.latexErr ≠ []) :
    renderFresh ms path ip hg env =
      (.error (.typesettingFailure env.latexErr), [Event.latexRun env.texName]) := by
  unfold renderFresh
  simp [herr]

theorem renderFresh_depth_none (ms : MathSource) (path ip : String) (hg : Bool)
    (env : Env) (hok : env.latexErr = [])
    (hd : depthSearch env.dvipngOut = none) :
    renderFresh ms path ip hg env =
      (.error .baselineParse,
       [Event.latexRun env.texName,
        Event.dvipngRun (env.abspath ip) (texSib env.texName "dvi")]) := by
  unfold renderFresh
  simp [hok, hd]

/-! ### Claim C4: typesetting failure aborts the pipeline -/

/-- C4: when the latex stderr capture is nonempty, render_math stops with
the typesetting failure; the trace is exactly one latex invocation, so
dvipng is never run, nothing is copied into place, and there is no retry. -/
theorem c4_latex_error_aborts (src : List Nat) (path : String) (dpi : Nat)
    (dm : Bool) (env : Env)
    (hmiss : env.isDir = false ∨
      (mkMathSource src dpi dm).find_in_dir path env.listing env.isfile = none)
    (herr : env.latexErr ≠ []) :
    render_math src path dpi dm env =
      (.error (.typesettingFailure env.latexErr), [Event.latexRun env.texName]) := by
  unfold render_math
  rcases hmiss with h | h
  · simp only [h, Bool.false_eq_true, if_false]
    exact renderFresh_latex_error _ _ _ _ _ herr
  · by_cases hd : env.isDir = true
    · simp only [hd, if_true, h]
      exact renderFresh_latex_error _ _ _ _ _ herr
    · simp only [Bool.not_eq_true] at hd
      simp only [hd, Bool.false_eq_true, if_false]
      exact renderFresh_latex_error _ _ _ _ _ herr

/-- Witness for c4_latex_error_aborts at a concrete input. -/
theorem c4_latex_error_aborts_witness :
    render_math (strBytes "badmath") "/tmp/out.png" 120 false envLatexFail =
      (.error (.typesettingFailure (strBytes "latex error output")),
       [Event.latexRun "/tmp/doc.tex"]) :=
  c4_latex_error_aborts (strBytes "badmath") "/tmp/out.png" 120 false
    envLatexFail (Or.inl rfl) (by decide)

/-! ### Claim C5: missing depth token is fatal -/

/-- C5: when the dvipng standard output contains no depth token followed by
digits, render_math ends in the fatal parse error; no fallback baseline is
substituted and no result pair is returned. -/
theorem c5_depth_parse_failure (src : List Nat) (path : String) (dpi : Nat)
    (dm : Bool) (env : Env)
    (hmiss : env.isDir = false ∨
      (mkMathSource src dpi dm).find_in_dir path env.listing env.isfile = none)
    (hok : env.latexErr = [])
    (hd : depthSearch env.dvipngOut = none) :
    (render_math src path dpi dm env).1 = .error .baselineParse := by
  unfold render_math
  rcases hmiss with h | h
  · simp only [h, Bool.false_eq_true, if_false]
    rw [renderFresh_depth_none _ _ _ _ _ hok hd]
  · by_cases hdir : env.isDir = true
    · simp only [hdir, if_true, h]
      rw [renderFresh_depth_none _ _ _ _ _ hok hd]
    · simp only [Bool.not_eq_true] at hdir
      simp only [hdir, Bool.false_eq_true, if_false]
      rw [renderFresh_depth_none _ _ _ _ _ hok hd]

/-- Witness for c5_depth_parse_failure at a concrete input. -/
theorem c5_depth_parse_failure_witness :
    (render_math (strBytes "x") "/tmp/out.png" 120 false envNoDepth).1 =
      .error .baselineParse :=
  c5_depth_parse_failure (strBytes "x") "/tmp/out.png" 120 false envNoDepth
    (Or.inl rfl) rfl (by decide)

/-! ### Claim C6: baselines are nonnegative -/

theorem matches_nonneg (ms : MathSource) (f : String) (b : Int)
    (h : ms.matches f = some b) : 0 ≤ b := by
  unfold MathSource.matches at h
  cases hr : reSearch ms.hashed.data f.data with
  | none => rw [hr] at h; simp at h
  | some n => rw [hr] at h; simp at h; omega

theorem find_in_dir_nonneg (ms : MathSource) (dirpath : String)
    (isfile : String → Bool) (p : String) (b : Int) :
    ∀ listing : List String,
      ms.find_in_dir dirpath listing isfile = some (p, b) → 0 ≤ b := by
  intro listing
  induction listing with
  | nil => intro h; simp [MathSource.find_in_dir] at h
  | cons f rest ih =>
    intro h
    unfold MathSource.find_in_dir at h
    split at h
    · split at h
      · split at h
        · rename_i heq _
          obtain ⟨h1, h2⟩ := Prod.mk.injEq .. ▸ Option.some.injEq .. ▸ h
          exact h2 ▸ matches_nonneg ms f _ heq
        · exact ih h
      · exact ih h
    · exact ih h

theorem renderFresh_ok_nonneg (ms : MathSource) (path ip : String) (hg : Bool)
    (env : Env) (p : String) (b : Int)
    (h : (renderFresh ms path ip hg env).1 = .ok (p, b)) : 0 ≤ b := by
  unfold renderFresh at h
  by_cases herr : env.latexErr = []
  · simp only [herr, ne_eq, not_true_eq_false, if_false] at h
    cases hd : depthSearch env.dvipngOut with
    | none => rw [hd] at h; simp at h
    | some dep =>
      rw [hd] at h
      simp only at h
      by_cases hgen : hg = true
      · subst hgen
        simp only [if_true] at h
        split at h
        · simp at h
        · simp only at h
          obtain ⟨-, h2⟩ := Prod.mk.injEq .. ▸ Except.ok.injEq .. ▸ h
          exact h2 ▸ Int.natCast_nonneg dep
      · simp only [Bool.not_eq_true] at hgen
        subst hgen
        simp only [Bool.false_eq_true, if_false] at h
        obtain ⟨-, h2⟩ := Prod.mk.injEq .. ▸ Except.ok.injEq .. ▸ h
        exact h2 ▸ Int.natCast_nonneg dep
  · simp only [herr, ne_eq, not_false_eq_true, if_true] at h
    simp at h

/-- C6: whenever render_math returns successfully, through the cache or a
fresh render, the returned baseline is nonnegative. -/
theorem c6_baseline_nonneg (src : List Nat) (path : String) (dpi : Nat)
    (dm : Bool) (env : Env) (p : String) (b : Int)
    (h : (render_math src path dpi dm env).1 = .ok (p, b)) : 0 ≤ b := by
  unfold render_math at h
  by_cases hdir : env.isDir = true
  · simp only [hdir, if_true] at h
    cases hfin : (mkMathSource src dpi dm).find_in_dir path env.listing env.isfile with
    | none =>
      rw [hfin] at h
      exact renderFresh_ok_nonneg _ _ _ _ _ _ _ h
    | some pr =>
      rw [hfin] at h
      obtain ⟨p0, b0⟩ := pr
      simp only at h
      obtain ⟨-, h2⟩ := Prod.mk.injEq .. ▸ Except.ok.injEq .. ▸ h
      exact h2 ▸ find_in_dir_nonneg _ _ _ _ _ _ hfin
  · simp only [Bool.not_eq_true] at hdir
    simp only [hdir, Bool.false_eq_true, if_false] at h
    exact renderFresh_ok_nonneg _ _ _ _ _ _ _ h

/-- Witness for c6_baseline_nonneg at a concrete successful render. -/
theorem c6_baseline_nonneg_witness : (0 : Int) ≤ 7 :=
  c6_baseline_nonneg (strBytes "x") "/tmp/out.png" 120 false envFileOk
    "/tmp/out.png" 7 (by rfl)

/-! ### Claim C8: shape of the persisted cache filename -/

theorem length_leBytes (k : Nat) : ∀ n, (leBytes n k).length = k := by
  induction k with
  | zero => intro n; rfl
  | succ k ih => intro n; simp [leBytes, ih]

theorem leBytes_lt (k : Nat) : ∀ n, ∀ x ∈ leBytes n k, x < 256 := by
  induction k with
  | zero => intro n x hx; simp [leBytes] at hx
  | succ k ih =>
    intro n x hx
    simp only [leBytes, List.mem_cons] at hx
    rcases hx with h | h
    · omega
    · exact ih _ x h

theorem length_md5Digest (msg : List Nat) : (md5Digest msg).length = 16 := by
  unfold md5Digest
  split
  simp [length_leBytes]

theorem md5Digest_lt (msg : List Nat) : ∀ x ∈ md5Digest msg, x < 256 := by
  unfold md5Digest
  split
  intro x hx
  simp only [List.mem_append] at hx
  rcases hx with ((h | h) | h) | h <;> exact leBytes_lt 4 _ x h

theorem length_bytesToHex : ∀ bs : List Nat, (bytesToHex bs).length = 2 * bs.length := by
  intro bs
  induction bs with
  | nil => rfl
  | cons b rest ih => simp [bytesToHex, ih]; omega

theorem hexChar_isHexLower : ∀ m, m < 16 → isHexLower (hexChar m) = true := by decide

theorem bytesToHex_hex : ∀ bs : List Nat, (∀ x ∈ bs, x < 256) →
    ∀ c ∈ bytesToHex bs, isHexLower c = true := by
  intro bs
  induction bs with
  | nil => intro _ c hc; simp [bytesToHex] at hc
  | cons b rest ih =>
    intro hb c hc
    have hblt : b < 256 := hb b (by simp)
    simp only [bytesToHex, List.mem_cons] at hc
    rcases hc with h | h | h
    · subst h; exact hexChar_isHexLower _ (by omega)
    · subst h; exact hexChar_isHexLower _ (by omega)
    · exact ih (fun x hx => hb x (by simp [hx])) c h

theorem hashed_length (ms : MathSource) : ms.hashed.length = 32 := by
  show (String.mk (bytesToHex (md5Digest _))).length = 32
  simp [String.length, length_bytesToHex, length_md5Digest]

theorem hashed_hex (ms : MathSource) :
    ∀ c ∈ ms.hashed.data, isHexLower c = true := by
  intro c hc
  exact bytesToHex_hex _ (md5Digest_lt _) c hc

theorem renderFresh_dir_ok (ms : MathSource) (path ip : String) (env : Env)
    (p : String) (b : Int)
    (h : (renderFresh ms path ip true env).1 = .ok (p, b)) :
    p = joinPath path (ms.hashed ++ "_" ++ intDecStr b ++ "_" ++ ".png") ∧
    Event.copyFile ip p ∈ (renderFresh ms path ip true env).2 := by
  by_cases herr : env.latexErr = []
  · cases hd : depthSearch env.dvipngOut with
    | none =>
      rw [renderFresh_depth_none _ _ _ _ _ herr hd] at h
      simp at h
    | some dep =>
      by_cases hdep : (dep : Int) = 0
      · unfold renderFresh at h
        simp only [herr, ne_eq, not_true_eq_false, if_false, hd,
          MathSource.generated_filename, hdep, if_true] at h
        simp at h
      · unfold renderFresh at h ⊢
        simp only [herr, ne_eq, not_true_eq_false, if_false, hd,
          MathSource.generated_filename, hdep, if_true, if_false] at h ⊢
        obtain ⟨h1, h2⟩ := Prod.mk.injEq .. ▸ Except.ok.injEq .. ▸ h
        subst h2
        refine ⟨h1.symm, ?_⟩
        rw [← h1]
        simp
  · rw [renderFresh_latex_error _ _ _ _ _ herr] at h
    simp at h

/-- C8: a successful directory-mode render with no cache hit returns, and
copies the rendered image to, the path inside the target directory whose
name is the content identity, an underscore, the baseline, an underscore
and the png suffix, where the identity is a 32-character lower-case hex
digest. -/
theorem c8_cache_persist (src : List Nat) (path : String) (dpi : Nat)
    (dm : Bool) (env : Env) (p : String) (b : Int)
    (hdir : env.isDir = true)
    (hmiss : (mkMathSource src dpi dm).find_in_dir path env.listing env.isfile = none)
    (hok : (render_math src path dpi dm env).1 = .ok (p, b)) :
    p = joinPath path
        ((mkMathSource src dpi dm).hashed ++ "_" ++ intDecStr b ++ "_" ++ ".png") ∧
    Event.copyFile env.tempImage p ∈ (render_math src path dpi dm env).2 ∧
    (mkMathSource src dpi dm).hashed.length = 32 ∧
    ∀ c ∈ (mkMathSource src dpi dm).hashed.data, isHexLower c = true := by
  unfold render_math at hok ⊢
  simp only [hdir, if_true, hmiss] at hok ⊢
  obtain ⟨h1, h2⟩ := renderFresh_dir_ok _ _ _ _ _ _ hok
  exact ⟨h1, h2, hashed_length _, hashed_hex _⟩

/-- Witness for c8_cache_persist at a concrete directory-mode render. -/
theorem c8_cache_persist_witness :
    joinPath "/tmp/cache" (msX.hashed ++ "_" ++ intDecStr 7 ++ "_" ++ ".png") =
      joinPath "/tmp/cache"
        ((mkMathSource (strBytes "x") 120 false).hashed ++ "_" ++ intDecStr 7 ++ "_" ++ ".png") ∧
    Event.copyFile "/tmp/img"
        (joinPath "/tmp/cache" (msX.hashed ++ "_" ++ intDecStr 7 ++ "_" ++ ".png")) ∈
      (render_math (strBytes "x") "/tmp/cache" 120 false envC8).2 ∧
    (mkMathSource (strBytes "x") 120 false).hashed.length = 32 ∧
    ∀ c ∈ (mkMathSource (strBytes "x") 120 false).hashed.data, isHexLower c = true :=
  c8_cache_persist (strBytes "x") "/tmp/cache" 120 false envC8
    (joinPath "/tmp/cache" (msX.hashed ++ "_" ++ intDecStr 7 ++ "_" ++ ".png")) 7
    rfl rfl (by rfl)

/-! ### Claim C9: baseline 0 is treated as unset -/

/-- C9: a Math Source whose baseline field holds the integer 0 is treated
by generated_filename as if the baseline were never set, because the code
tests the field for truth and 0 is falsy; consequently a directory-mode
render whose converter reports depth=0 fails with BaselineNotSetException
while building the cache filename instead of returning a pair. -/
theorem c9_zero_baseline_rejected (src : List Nat) (dpi : Nat) (dm : Bool)
    (path : String) (env : Env) (suffix : String)
    (hdir : env.isDir = true)
    (hmiss : (mkMathSource src dpi dm).find_in_dir path env.listing env.isfile = none)
    (hok : env.latexErr = [])
    (hd : depthSearch env.dvipngOut = some 0) :
    (MathSource.mk src dpi dm (some 0)).generated_filename suffix =
      .error .baselineNotSet ∧
    (render_math src path dpi dm env).1 = .error .baselineNotSet := by
  constructor
  · rfl
  · unfold render_math
    simp only [hdir, if_true, hmiss]
    unfold renderFresh
    simp only [hok, ne_eq, not_true_eq_false, if_false, hd]
    simp [MathSource.generated_filename]

/-- Witness for c9_zero_baseline_rejected at a concrete input. -/
theorem c9_zero_baseline_rejected_witness :
    (MathSource.mk (strBytes "x") 120 false (some 0)).generated_filename ".png" =
      .error .baselineNotSet ∧
    (render_math (strBytes "x") "/tmp/cache" 120 false envC9).1 =
      .error .baselineNotSet :=
  c9_zero_baseline_rejected (strBytes "x") 120 false "/tmp/cache" envC9 ".png"
    rfl rfl rfl (by decide)

/-! ### Claim C1: the cache-hit path misses because isfile uses the cwd -/

/-- C1: the listed cached artifact does match the content identity of the
source, and with os.path.isfile answering true it would be returned; but
find_in_dir tests os.path.isfile on the bare listing name, which the
interpreter resolves against the process working directory rather than the
target directory, so when the working directory is elsewhere the cached
artifact is skipped and render_math invokes latex again. -/
theorem c1_cached_artifact_missed :
    msX.matches cachedNameX = some 7 ∧
    msX.find_in_dir "/tmp/cache" [cachedNameX] (fun _ => true) =
      some ("/tmp/cache/" ++ cachedNameX, 7) ∧
    msX.find_in_dir "/tmp/cache" [cachedNameX] (fun _ => false) = none ∧
    Event.latexRun "/tmp/doc.tex" ∈
      (render_math (strBytes "x") "/tmp/cache" 120 false envC1).2 := by
  refine ⟨by decide, by decide, by decide, by decide⟩

/-! ### Claim C10: matches is an unanchored substring search -/

theorem chopStart_eq_some : ∀ (p s t : List Char),
    chopStart p s = some t ↔ s = p ++ t := by
  intro p
  induction p with
  | nil =>
    intro s t
    simp only [chopStart, Option.some.injEq, List.nil_append]
  | cons c cs ih =>
    intro s t
    cases s with
    | nil => simp [chopStart]
    | cons a as =>
      simp only [chopStart]
      by_cases hca : c = a
      · subst hca
        simp only [if_true, List.cons_append, List.cons.injEq, true_and]
        exact ih as t
      · simp only [hca, if_false, List.cons_append]
        constructor
        · intro h; cases h
        · intro h
          injection h with h1 _
          exact absurd h1.symm hca

theorem digitSpan_eq (s : List Char) :
    s = (digitSpan s).1 ++ (digitSpan s).2 ∧
      ∀ c ∈ (digitSpan s).1, c.isDigit = true := by
  induction s with
  | nil => simp [digitSpan]
  | cons c cs ih =>
    by_cases hc : c.isDigit = true
    · simp only [digitSpan, hc, if_true]
      refine ⟨?_, ?_⟩
      · simpa using ih.1
      · intro x hx
        simp only [List.mem_cons] at hx
        rcases hx with rfl | hx
        · exact hc
        · exact ih.2 x hx
    · simp only [digitSpan, hc, Bool.false_eq_true, if_false]
      simp

theorem digitSpan_digits_underscore (ds rs : List Char)
    (hds : ∀ c ∈ ds, c.isDigit = true) :
    digitSpan (ds ++ '_' :: rs) = (ds, '_' :: rs) := by
  induction ds with
  | nil => simp [digitSpan]
  | cons c cs ih =>
    have hc : c.isDigit = true := hds c (by simp)
    have ih2 := ih (fun x hx => hds x (by simp [hx]))
    simp [digitSpan, hc, ih2]

theorem tryAt_isSome (hash : List Char) (s : List Char) :
    (tryAt hash s).isSome = true ↔
      ∃ ds rest, s = hash ++ '_' :: (ds ++ '_' :: rest) ∧ ds ≠ [] ∧
        ∀ c ∈ ds, c.isDigit = true := by
  constructor
  · intro h
    unfold tryAt at h
    cases hc : chopStart hash s with
    | none => rw [hc] at h; simp at h
    | some t =>
      have hs : s = hash ++ t := (chopStart_eq_some hash s t).mp hc
      rw [hc] at h
      cases t with
      | nil => simp at h
      | cons u t2 =>
        simp only at h
        by_cases hu : u = '_'
        · rw [if_pos hu] at h
          subst hu
          obtain ⟨hsplit, hdig⟩ := digitSpan_eq t2
          cases hsp : digitSpan t2 with
          | mk ds0 rest0 =>
            rw [hsp] at h hsplit hdig
            dsimp only at hsplit hdig
            cases rest0 with
            | nil => simp at h
            | cons r rrest =>
              simp only at h
              by_cases hr : r = '_'
              · rw [if_pos hr] at h
                subst hr
                by_cases hds : ds0 = []
                · rw [if_pos hds] at h; simp at h
                · exact ⟨ds0, rrest, by rw [hs, hsplit], hds, hdig⟩
              · rw [if_neg hr] at h; simp at h
        · rw [if_neg hu] at h; simp at h
  · rintro ⟨ds, rest, rfl, hne, hdig⟩
    unfold tryAt
    have hcs : chopStart hash (hash ++ '_' :: (ds ++ '_' :: rest)) =
        some ('_' :: (ds ++ '_' :: rest)) :=
      (chopStart_eq_some hash _ ('_' :: (ds ++ '_' :: rest))).mpr rfl
    simp only [hcs, if_true]
    rw [digitSpan_digits_underscore ds rest hdig]
    simp [hne]

theorem reSearch_isSome (hash : List Char) : ∀ s : List Char,
    (reSearch hash s).isSome = true ↔
      ∃ a ds rest, s = a ++ (hash ++ '_' :: (ds ++ '_' :: rest)) ∧ ds ≠ [] ∧
        ∀ c ∈ ds, c.isDigit = true := by
  intro s
  induction s with
  | nil =>
    constructor
    · intro h
      exfalso
      have h0 : (tryAt hash []).isSome = true := by
        unfold reSearch at h
        exact h
      obtain ⟨ds, rest, happ, -, -⟩ := (tryAt_isSome hash []).mp h0
      have := congrArg List.length happ
      simp at this
      omega
    · rintro ⟨a, ds, rest, happ, -, -⟩
      exfalso
      have := congrArg List.length happ
      simp at this
      omega
  | cons c cs ih =>
    unfold reSearch
    cases ht : tryAt hash (c :: cs) with
    | some n =>
      simp only [Option.isSome_some, true_iff]
      have h0 : (tryAt hash (c :: cs)).isSome = true := by rw [ht]; rfl
      obtain ⟨ds, rest, happ, hne, hdig⟩ := (tryAt_isSome hash (c :: cs)).mp h0
      exact ⟨[], ds, rest, by simpa using happ, hne, hdig⟩
    | none =>
      simp only
      rw [ih]
      constructor
      · rintro ⟨a, ds, rest, happ, hne, hdig⟩
        exact ⟨c :: a, ds, rest, by simp [happ], hne, hdig⟩
      · rintro ⟨a, ds, rest, happ, hne, hdig⟩
        cases a with
        | nil =>
          exfalso
          have h0 : (tryAt hash (c :: cs)).isSome = true :=
            (tryAt_isSome hash (c :: cs)).mpr ⟨ds, rest, by simpa using happ, hne, hdig⟩
          rw [ht] at h0
          simp at h0
        | cons a0 as =>
          rw [List.cons_append] at happ
          injection happ with h1 h2
          exact ⟨as, ds, rest, h2, hne, hdig⟩

/-- C10: matches succeeds exactly on the filenames that contain the
identity, an underscore, a nonempty digit run and an underscore anywhere
as a substring; in particular a filename with an arbitrary prefix before
the identity still matches, and a filename with no such substring gives
None. -/
theorem c10_matches_unanchored :
    (∀ (ms : MathSource) (filename : String),
        (ms.matches filename).isSome = true ↔
          ∃ a ds rest,
            filename.data = a ++ (ms.hashed.data ++ '_' :: (ds ++ '_' :: rest)) ∧
            ds ≠ [] ∧ ∀ c ∈ ds, c.isDigit = true) ∧
    msX.matches ("zz" ++ msX.hashed ++ "_7_.png") = some 7 ∧
    msX.matches "unrelated.png" = none := by
  refine ⟨?_, by decide, by decide⟩
  intro ms filename
  rw [← reSearch_isSome ms.hashed.data filename.data]
  unfold MathSource.matches
  cases hr : reSearch ms.hashed.data filename.data <;> simp [hr]
